import Mathlib

/-!
Shallow embedding of the ChickThisOut Facebook automation pipeline:
the idempotency ledger (`src/database.py`), the poll-path handlers
(`src/comment_handler.py`, `src/message_handler.py`), the AI responder
post-processing (`src/ai_responder.py`) and the push-webhook endpoint
(`api/webhook.py`).  Python strings are modelled by Lean `String`,
`dict.get` defaults by explicit `Option`/default values, and the external
collaborators (Graph API, Gemini) by oracle parameters giving their
return values.
-/

namespace ChickThisOut

/-- Python `str.strip()`: drop leading and trailing whitespace. -/
def pyStrip (s : String) : String :=
  ⟨((s.data.dropWhile Char.isWhitespace).reverse.dropWhile Char.isWhitespace).reverse⟩

/-- Row of the `processed_comments` table (`ProcessedComment` in `database.py`). -/
structure CommentRecord where
  postId : String
  message : String
  fromName : String
  fromId : String
  ourReply : Option String
  replied : Bool
  error : Option String
  deriving Repr, DecidableEq

/-- Row of the `processed_messages` table (`ProcessedMessage` in `database.py`). -/
structure MessageRecord where
  conversationId : String
  message : String
  fromName : String
  fromId : String
  ourReply : Option String
  replied : Bool
  error : Option String
  deriving Repr, DecidableEq

/-- The durable ledger state: both tables, keyed by external event id. -/
structure DB where
  comments : List (String × CommentRecord)
  messages : List (String × MessageRecord)
  deriving Repr, DecidableEq

def DB.empty : DB := ⟨[], []⟩

/-- Lookup by primary key in a table. -/
def findRecord {α : Type} (table : List (String × α)) (id : String) : Option α :=
  (table.find? (fun p => p.1 == id)).map (·.2)

/-- `session.merge` keyed on the primary key: update the row if present,
otherwise insert it. -/
def upsert {α : Type} (table : List (String × α)) (id : String) (r : α) :
    List (String × α) :=
  if (table.find? (fun p => p.1 == id)).isSome then
    table.map (fun p => if p.1 == id then (id, r) else p)
  else
    table ++ [(id, r)]

/-- `DatabaseManager.is_comment_processed`: true iff a row with this id exists. -/
def is_comment_processed (db : DB) (commentId : String) : Bool :=
  (findRecord db.comments commentId).isSome

/-- `DatabaseManager.is_message_processed`. -/
def is_message_processed (db : DB) (messageId : String) : Bool :=
  (findRecord db.messages messageId).isSome

/-- The body of `mark_comment_processed`'s `try` block: build the row and
commit the merge.  `writeOk` is the oracle for whether the storage commit
succeeds; a failing commit raises inside the `try`. -/
def mark_comment_attempt (db : DB) (writeOk : Bool) (commentId postId msg
    fromName fromId : String) (ourReply : Option String) (replied : Bool)
    (error : Option String) : Except String DB :=
  if writeOk then
    let row : CommentRecord := ⟨postId, msg, fromName, fromId, ourReply, replied, error⟩
    .ok { db with comments := upsert db.comments commentId row }
  else
    .error "storage write failed"

/-- `DatabaseManager.mark_comment_processed`: the exception from a failing
commit is caught, the session rolled back, and nothing propagates — the
operation always returns a database state. -/
def mark_comment_processed (db : DB) (writeOk : Bool) (commentId postId msg
    fromName fromId : String) (ourReply : Option String) (replied : Bool)
    (error : Option String) : DB :=
  match mark_comment_attempt db writeOk commentId postId msg fromName fromId
      ourReply replied error with
  | .ok db' => db'
  | .error _ => db

/-- The body of `mark_message_processed`'s `try` block. -/
def mark_message_attempt (db : DB) (writeOk : Bool) (messageId convId msg
    fromName fromId : String) (ourReply : Option String) (replied : Bool)
    (error : Option String) : Except String DB :=
  if writeOk then
    let row : MessageRecord := ⟨convId, msg, fromName, fromId, ourReply, replied, error⟩
    .ok { db with messages := upsert db.messages messageId row }
  else
    .error "storage write failed"

/-- `DatabaseManager.mark_message_processed`: same catch-and-rollback shape. -/
def mark_message_processed (db : DB) (writeOk : Bool) (messageId convId msg
    fromName fromId : String) (ourReply : Option String) (replied : Bool)
    (error : Option String) : DB :=
  match mark_message_attempt db writeOk messageId convId msg fromName fromId
      ourReply replied error with
  | .ok db' => db'
  | .error _ => db

/-! ## AI responder (`src/ai_responder.py`) -/

/-- A generation request as assembled by the handlers: the customer text, the
optional context string, and the `message_type` argument of
`AIResponder.generate_response`. -/
structure GenRequest where
  text : String
  context : Option String
  kind : String
  deriving Repr, DecidableEq

/-- Python `s[1:-1]`: drop the first and the last character. -/
def sliceDropEnds (s : String) : String :=
  ⟨(s.data.drop 1).dropLast⟩

/-- Python `s.startswith(c)` for a single character. -/
def startsWithChar (s : String) (c : Char) : Bool :=
  match s.data with
  | [] => false
  | d :: _ => d == c

/-- Python `s.endswith(c)` for a single character. -/
def endsWithChar (s : String) (c : Char) : Bool :=
  match s.data.getLast? with
  | none => false
  | some d => d == c

/-- The post-processing applied by `AIResponder.generate_response` to a
successfully returned text: `response.text.strip()`, then removal of one
layer of wrapping double quotes when both the first and the last character
of the stripped text are `"`. -/
def clean_generated (t : String) : String :=
  let g := pyStrip t
  if startsWithChar g '"' && endsWithChar g '"' then sliceDropEnds g else g

/-- `AIResponder.generate_response` after the model call: `modelOk` is
whether the Gemini model was initialized, `respText` the `response.text`
returned by the model (`none` for a missing/None response, `some ""` for an
empty text — both fall into the `else` branch via Python truthiness). -/
def generate_response (modelOk : Bool) (respText : Option String) : Option String :=
  if !modelOk then none
  else
    match respText with
    | none => none
    | some t => if t == "" then none else some (clean_generated t)

/-! ## Poll-path comment handler (`src/comment_handler.py`) -/

/-- A raw comment dict as consumed by `_process_single_comment`:
`comment.get("id")`, `comment.get("message", "")`,
`comment.get("from", {})` and `comment.get("is_hidden", False)`. -/
structure FBComment where
  id : Option String
  message : String
  fromId : String
  fromName : String
  isHidden : Bool
  deriving Repr, DecidableEq

/-- One existing reply under a comment, as returned by
`facebook_api.get_comment_replies`. -/
structure FBReply where
  fromId : String
  message : String
  deriving Repr, DecidableEq

/-- Observable outcome of processing one comment: the returned result
string, the ledger afterwards, the generation request made (if any), and
whether the dispatch adapter (`fb.reply_to_comment`) was invoked. -/
structure CommentOut where
  result : String
  db : DB
  genReq : Option GenRequest
  dispatched : Bool
  deriving Repr, DecidableEq

/-- `CommentHandler._process_single_comment`.  Oracles: `existingReplies`
is the result of `fb.get_comment_replies`, `aiResp` the return of
`ai.generate_comment_reply` (`none` = Python `None`, `some ""` = empty
string, both falsy), `dispatchOk` the truthiness of
`fb.reply_to_comment`'s return, `writeOk` whether ledger commits succeed. -/
def process_single_comment (pageId : String) (existingReplies : List FBReply)
    (aiResp : Option String) (dispatchOk writeOk : Bool)
    (c : FBComment) (postId : String) (db : DB) : CommentOut :=
  match c.id with
  | none => ⟨"error", db, none, false⟩
  | some cid =>
    if is_comment_processed db cid then
      ⟨"skipped", db, none, false⟩
    else if c.fromId == pageId then
      ⟨"new",
       mark_comment_processed db writeOk cid postId c.message c.fromName c.fromId
         none false (some "Skipped: Own page comment"),
       none, false⟩
    else if c.isHidden then
      ⟨"new",
       mark_comment_processed db writeOk cid postId c.message c.fromName c.fromId
         none false (some "Skipped: Hidden comment"),
       none, false⟩
    else if pyStrip c.message == "" then
      ⟨"new",
       mark_comment_processed db writeOk cid postId c.message c.fromName c.fromId
         none false (some "Skipped: Empty comment"),
       none, false⟩
    else
      match existingReplies.find? (fun r => r.fromId == pageId) with
      | some r =>
        ⟨"skipped",
         mark_comment_processed db writeOk cid postId c.message c.fromName c.fromId
           (some r.message) true none,
         none, false⟩
      | none =>
        let req : GenRequest := ⟨c.message, none, "comment"⟩
        match aiResp with
        | none =>
          ⟨"error",
           mark_comment_processed db writeOk cid postId c.message c.fromName c.fromId
             none false (some "AI failed to generate response"),
           some req, false⟩
        | some resp =>
          if resp == "" then
            ⟨"error",
             mark_comment_processed db writeOk cid postId c.message c.fromName c.fromId
               none false (some "AI failed to generate response"),
             some req, false⟩
          else if dispatchOk then
            ⟨"replied",
             mark_comment_processed db writeOk cid postId c.message c.fromName c.fromId
               (some resp) true none,
             some req, true⟩
          else
            ⟨"error",
             mark_comment_processed db writeOk cid postId c.message c.fromName c.fromId
               (some resp) false (some "Failed to post reply to Facebook"),
             some req, true⟩

/-! ## Poll-path message handler (`src/message_handler.py`) -/

/-- A raw message dict: `message.get("id")`, `message.get("message", "")`,
`message.get("from", {})`. -/
structure FBMessage where
  id : Option String
  message : String
  fromId : String
  fromName : String
  deriving Repr, DecidableEq

/-- `MessageHandler._get_latest_customer_message`: scan the (newest-first)
list and return the first message whose sender is not the page itself. -/
def get_latest_customer_message (pageId : String) : List FBMessage → Option FBMessage
  | [] => none
  | m :: rest =>
    if m.fromId != pageId then some m else get_latest_customer_message pageId rest

/-- `MessageHandler._build_conversation_context`: the fetched (newest-first)
messages are walked oldest first; each message with non-empty text
contributes a `"<senderName>: <text>"` line; lines are joined by `"\n"`. -/
def build_conversation_context (fetched : List FBMessage) : String :=
  let lines := fetched.reverse.filterMap fun m =>
    if m.message == "" then none else some (m.fromName ++ ": " ++ m.message)
  String.intercalate "\n" lines

/-- Observable outcome of processing one message. -/
structure MessageOut where
  result : String
  db : DB
  genReq : Option GenRequest
  dispatched : Bool
  deriving Repr, DecidableEq

/-- `MessageHandler._process_single_message`.  `fetchedCtx` is the result of
`fb.get_conversation_messages(conversation_id, limit=5)` used by
`_build_conversation_context`; the other oracles are as for comments
(`dispatchOk` is the truthiness of `fb.send_message`'s return). -/
def process_single_message (pageId : String) (fetchedCtx : List FBMessage)
    (aiResp : Option String) (dispatchOk writeOk : Bool)
    (m : FBMessage) (convId : String) (db : DB) : MessageOut :=
  match m.id with
  | none => ⟨"error", db, none, false⟩
  | some mid =>
    if is_message_processed db mid then
      ⟨"skipped", db, none, false⟩
    else if m.fromId == pageId then
      ⟨"new",
       mark_message_processed db writeOk mid convId m.message m.fromName m.fromId
         none false (some "Skipped: Own page message"),
       none, false⟩
    else if pyStrip m.message == "" then
      ⟨"new",
       mark_message_processed db writeOk mid convId m.message m.fromName m.fromId
         none false (some "Skipped: Empty message"),
       none, false⟩
    else
      let ctx := build_conversation_context fetchedCtx
      let req : GenRequest := ⟨m.message, some ctx, "message"⟩
      match aiResp with
      | none =>
        ⟨"error",
         mark_message_processed db writeOk mid convId m.message m.fromName m.fromId
           none false (some "AI failed to generate response"),
         some req, false⟩
      | some resp =>
        if resp == "" then
          ⟨"error",
           mark_message_processed db writeOk mid convId m.message m.fromName m.fromId
             none false (some "AI failed to generate response"),
           some req, false⟩
        else if dispatchOk then
          ⟨"replied",
           mark_message_processed db writeOk mid convId m.message m.fromName m.fromId
             (some resp) true none,
           some req, true⟩
        else
          ⟨"error",
           mark_message_processed db writeOk mid convId m.message m.fromName m.fromId
             (some resp) false (some "Failed to send message via Facebook"),
           some req, true⟩

/-! ## Poll-path cycle drivers

`process_all_comments` iterates posts and their comments; here the nested
loops are flattened to one list of per-comment inputs, each tagged with its
`post_id` and with the oracles for that comment's processing.  The `raises`
flag is the oracle for an exception escaping that single comment's
processing (e.g. a storage error raised by the ledger existence query);
`_process_single_comment` contains no `try`, so such an exception unwinds
to the `try` wrapping the whole cycle. -/

structure CommentIn where
  comment : FBComment
  postId : String
  raises : Bool
  existingReplies : List FBReply
  aiResp : Option String
  dispatchOk : Bool
  deriving Repr, DecidableEq

/-- The per-cycle counters updated from per-event results (`new_comments` /
`new_messages`, `replies_sent`, `errors`; the purely input-derived
`posts_checked` / `comments_found` counters are omitted). -/
structure CycleStats where
  newCount : Nat
  repliesSent : Nat
  errors : Nat
  deriving Repr, DecidableEq

def CycleStats.zero : CycleStats := ⟨0, 0, 0⟩

/-- The `if result == ...` tally block shared by both cycle loops. -/
def tallyResult (stats : CycleStats) (result : String) : CycleStats :=
  if result == "replied" then
    { stats with repliesSent := stats.repliesSent + 1, newCount := stats.newCount + 1 }
  else if result == "new" then { stats with newCount := stats.newCount + 1 }
  else if result == "error" then { stats with errors := stats.errors + 1 }
  else stats

/-- The loop inside `process_all_comments`'s `try` block: an exception from
one comment's processing propagates (`.error`), carrying the counters and
ledger state reached so far. -/
def comment_cycle_loop (pageId : String) (writeOk : Bool) :
    List CommentIn → DB → CycleStats → Except (CycleStats × DB) (CycleStats × DB)
  | [], db, stats => .ok (stats, db)
  | ev :: rest, db, stats =>
    if ev.raises then .error (stats, db)
    else
      let out := process_single_comment pageId ev.existingReplies ev.aiResp
        ev.dispatchOk writeOk ev.comment ev.postId db
      comment_cycle_loop pageId writeOk rest out.db (tallyResult stats out.result)

/-- `CommentHandler.process_all_comments`: the `except` clause around the
whole loop catches the escaped exception and increments `errors` once. -/
def process_all_comments (pageId : String) (writeOk : Bool)
    (evs : List CommentIn) (db : DB) : CycleStats × DB :=
  match comment_cycle_loop pageId writeOk evs db CycleStats.zero with
  | .ok r => r
  | .error (s, d) => ({ s with errors := s.errors + 1 }, d)

/-- One fetched conversation with the oracles for processing its latest
customer message. -/
structure ConvIn where
  convId : Option String
  msgs : List FBMessage
  raises : Bool
  fetchedCtx : List FBMessage
  aiResp : Option String
  dispatchOk : Bool
  deriving Repr, DecidableEq

/-- The loop inside `process_all_messages`'s `try` block.  Besides the
counters and ledger it accumulates the `(conversation_id, message)` pairs
actually submitted to `_process_single_message`. -/
def message_cycle_loop (pageId : String) (writeOk : Bool) :
    List ConvIn → DB → CycleStats → List (String × FBMessage) →
    Except (CycleStats × DB × List (String × FBMessage))
      (CycleStats × DB × List (String × FBMessage))
  | [], db, stats, submitted => .ok (stats, db, submitted)
  | cv :: rest, db, stats, submitted =>
    match cv.convId with
    | none => message_cycle_loop pageId writeOk rest db stats submitted
    | some cid =>
      match get_latest_customer_message pageId cv.msgs with
      | none => message_cycle_loop pageId writeOk rest db stats submitted
      | some m =>
        if cv.raises then .error (stats, db, submitted)
        else
          let out := process_single_message pageId cv.fetchedCtx cv.aiResp
            cv.dispatchOk writeOk m cid db
          message_cycle_loop pageId writeOk rest out.db
            (tallyResult stats out.result) (submitted ++ [(cid, m)])

/-- `MessageHandler.process_all_messages`. -/
def process_all_messages (pageId : String) (writeOk : Bool)
    (convs : List ConvIn) (db : DB) : CycleStats × DB × List (String × FBMessage) :=
  match message_cycle_loop pageId writeOk convs db CycleStats.zero [] with
  | .ok r => r
  | .error (s, d, sub) => ({ s with errors := s.errors + 1 }, d, sub)

/-! ## Push-webhook endpoint (`api/webhook.py`)

The serverless webhook module has its own copies of generation and
dispatch (`generate_ai_response`, `reply_to_comment`, `send_message`) and
imports no database module at all, so its handlers take no ledger state;
`do_POST` below threads the ledger through unchanged to make that
observable.  Results of the event processors are the pair
`(generation calls made, dispatch calls made)`. -/

/-- One element of `entry["changes"]` as read by `process_comment_event`:
`change.get("field")` and the `value` sub-fields. -/
structure FeedChange where
  field : String
  item : String
  verb : String
  commentId : Option String
  message : String
  fromId : String
  deriving Repr, DecidableEq

/-- `process_comment_event` over `entry["changes"]`.  `aiResp` is the
oracle for `generate_ai_response` (already `.strip()`ed by that function;
`none` = Python `None`).  A change authored by the page itself executes
`return`, abandoning the remaining changes. -/
def process_comment_event (pageId : String) (aiResp : String → Option String) :
    List FeedChange → Nat × Nat
  | [] => (0, 0)
  | ch :: rest =>
    if ch.field == "feed" then
      if ch.item == "comment" && ch.verb == "add" then
        if ch.fromId == pageId then (0, 0)
        else
          let proceed :=
            match ch.commentId with
            | none => false
            | some cid => cid != "" && ch.message != ""
          if proceed then
            match aiResp ch.message with
            | none =>
              let (g, d) := process_comment_event pageId aiResp rest
              (g + 1, d)
            | some r =>
              if r == "" then
                let (g, d) := process_comment_event pageId aiResp rest
                (g + 1, d)
              else
                let (g, d) := process_comment_event pageId aiResp rest
                (g + 1, d + 1)
          else process_comment_event pageId aiResp rest
      else process_comment_event pageId aiResp rest
    else process_comment_event pageId aiResp rest

/-- One element of `entry["messaging"]` as read by `process_message_event`. -/
structure MessagingEvent where
  senderId : String
  isEcho : Bool
  text : String
  deriving Repr, DecidableEq

/-- `process_message_event`: an own-page or echo event executes `return`,
abandoning the remaining events. -/
def process_message_event (pageId : String) (aiResp : String → Option String) :
    List MessagingEvent → Nat × Nat
  | [] => (0, 0)
  | ev :: rest =>
    if ev.senderId == pageId || ev.isEcho then (0, 0)
    else if ev.text != "" then
      match aiResp ev.text with
      | none =>
        let (g, d) := process_message_event pageId aiResp rest
        (g + 1, d)
      | some r =>
        if r == "" then
          let (g, d) := process_message_event pageId aiResp rest
          (g + 1, d)
        else
          let (g, d) := process_message_event pageId aiResp rest
          (g + 1, d + 1)
    else process_message_event pageId aiResp rest

/-- Python `s.replace(old, new)` on character lists: every occurrence of
`pat` is replaced by `repl`, scanning left to right.  The fuel argument
(instantiated with the list length, an upper bound on the number of steps)
keeps the recursion structural. -/
def pyReplaceLoop (pat repl : List Char) : Nat → List Char → List Char
  | _, [] => []
  | 0, s => s
  | fuel + 1, c :: rest =>
    if pat.isPrefixOf (c :: rest) && !pat.isEmpty then
      repl ++ pyReplaceLoop pat repl fuel ((c :: rest).drop pat.length)
    else
      c :: pyReplaceLoop pat repl fuel rest

/-- Python `s.replace(old, new)`. -/
def pyReplace (s pat repl : String) : String :=
  ⟨pyReplaceLoop pat.data repl.data s.data.length s.data⟩

/-- `verify_signature`: `hmacHex secret payload` abstracts the hex-encoded
HMAC-SHA256 of the raw body under the secret; Python strips the
`"sha256="` marker with `str.replace` and compares digests. -/
def verify_signature (hmacHex : String → String → String) (secret : String)
    (payload sig : String) : Bool :=
  if secret == "" then true
  else if sig == "" then false
  else hmacHex secret payload == pyReplace sig "sha256=" ""

/-- One element of `data["entry"]`: the `changes` / `messaging` keys when
present. -/
structure WebhookEntry where
  changes : Option (List FeedChange)
  messaging : Option (List MessagingEvent)
  deriving Repr, DecidableEq

/-- The parsed delivery body: `data["object"]` and `data["entry"]`. -/
structure WebhookPayload where
  objectType : String
  entries : List WebhookEntry
  deriving Repr, DecidableEq

/-- `handler.do_POST`: returns the HTTP status sent, the total
`(generation calls, dispatch calls)` made while handling the delivery, and
the ledger state afterwards (always unchanged — the webhook module never
touches the ledger).  `parsed = none` models a body `json.loads` rejects,
which the outer `except` turns into a 500. -/
def do_POST (hmacHex : String → String → String) (secret pageId : String)
    (aiResp : String → Option String) (rawBody sig : String)
    (parsed : Option WebhookPayload) (db : DB) : Nat × (Nat × Nat) × DB :=
  if secret != "" && !(verify_signature hmacHex secret rawBody sig) then
    (403, (0, 0), db)
  else
    match parsed with
    | none => (500, (0, 0), db)
    | some data =>
      let counts := data.entries.foldl (fun acc entry =>
        if data.objectType == "page" then
          let a := match entry.changes with
            | some chs => process_comment_event pageId aiResp chs
            | none => (0, 0)
          let b := match entry.messaging with
            | some ms => process_message_event pageId aiResp ms
            | none => (0, 0)
          (acc.1 + a.1 + b.1, acc.2 + a.2 + b.2)
        else acc) (0, 0)
      (200, counts, db)

/-! ## Helper lemmas -/

theorem find?_map_upsert {α : Type} (id : String) (r : α) :
    ∀ t : List (String × α), (t.find? (fun p => p.1 == id)).isSome = true →
      (t.map (fun p => if p.1 == id then (id, r) else p)).find? (fun p => p.1 == id) =
        some (id, r)
  | [], h => by simp [List.find?] at h
  | p :: rest, h => by
    cases hp : (p.1 == id) with
    | true =>
      rw [List.map_cons]
      rw [if_pos hp]
      exact List.find?_cons_of_pos _ (by simp)
    | false =>
      have h' : (rest.find? (fun p => p.1 == id)).isSome = true := by
        rw [List.find?_cons_of_neg _ (by simp [hp])] at h
        exact h
      rw [List.map_cons, if_neg (by simp [hp])]
      rw [List.find?_cons_of_neg _ (by simp [hp])]
      exact find?_map_upsert id r rest h'

theorem findRecord_upsert {α : Type} (t : List (String × α)) (id : String) (r : α) :
    findRecord (upsert t id r) id = some r := by
  unfold upsert findRecord
  cases ho : t.find? (fun p => p.1 == id) with
  | some v =>
    have hs : (t.find? (fun p => p.1 == id)).isSome = true := by rw [ho]; rfl
    rw [if_pos (by simp : (some v).isSome = true)]
    rw [find?_map_upsert id r t hs]
    rfl
  | none =>
    rw [if_neg (by simp : ¬(none : Option (String × α)).isSome = true)]
    rw [List.find?_append, ho]
    simp [List.find?]

theorem findRecord_mark_comment (db : DB) (cid postId msg fn fi : String)
    (rep : Option String) (repl : Bool) (err : Option String) :
    findRecord (mark_comment_processed db true cid postId msg fn fi rep repl err).comments
      cid = some ⟨postId, msg, fn, fi, rep, repl, err⟩ := by
  unfold mark_comment_processed mark_comment_attempt
  simpa using findRecord_upsert db.comments cid _

theorem findRecord_mark_message (db : DB) (mid convId msg fn fi : String)
    (rep : Option String) (repl : Bool) (err : Option String) :
    findRecord (mark_message_processed db true mid convId msg fn fi rep repl err).messages
      mid = some ⟨convId, msg, fn, fi, rep, repl, err⟩ := by
  unfold mark_message_processed mark_message_attempt
  simpa using findRecord_upsert db.messages mid _

theorem comment_loop_raise (pageId : String) (writeOk : Bool) (ev : CommentIn)
    (hev : ev.raises = true) (post : List CommentIn) :
    ∀ (pre : List CommentIn) (db : DB) (stats : CycleStats),
      (∀ e ∈ pre, e.raises = false) →
      ∃ s d, comment_cycle_loop pageId writeOk pre db stats = .ok (s, d) ∧
        comment_cycle_loop pageId writeOk (pre ++ ev :: post) db stats = .error (s, d)
  | [], db, stats, _ =>
    ⟨stats, db, rfl, by simp [comment_cycle_loop, hev]⟩
  | e :: pre, db, stats, hpre => by
    have he : e.raises = false := hpre e (List.mem_cons_self e pre)
    have hrest : ∀ x ∈ pre, x.raises = false :=
      fun x hx => hpre x (List.mem_cons_of_mem e hx)
    obtain ⟨s, d, h1, h2⟩ := comment_loop_raise pageId writeOk ev hev post pre
      (process_single_comment pageId e.existingReplies e.aiResp e.dispatchOk writeOk
        e.comment e.postId db).db
      (tallyResult stats (process_single_comment pageId e.existingReplies e.aiResp
        e.dispatchOk writeOk e.comment e.postId db).result)
      hrest
    refine ⟨s, d, ?_, ?_⟩
    · rw [comment_cycle_loop]
      simp only [he, Bool.false_eq_true, if_false]
      exact h1
    · rw [List.cons_append, comment_cycle_loop]
      simp only [he, Bool.false_eq_true, if_false]
      exact h2

theorem message_loop_raise (pageId : String) (writeOk : Bool) (cv : ConvIn) (cid : String)
    (m : FBMessage) (hcid : cv.convId = some cid)
    (hm : get_latest_customer_message pageId cv.msgs = some m)
    (hr : cv.raises = true) (post : List ConvIn) :
    ∀ (pre : List ConvIn) (db : DB) (stats : CycleStats) (acc : List (String × FBMessage)),
      (∀ x ∈ pre, x.raises = false) →
      ∃ s d sub, message_cycle_loop pageId writeOk pre db stats acc = .ok (s, d, sub) ∧
        message_cycle_loop pageId writeOk (pre ++ cv :: post) db stats acc = .error (s, d, sub)
  | [], db, stats, acc, _ =>
    ⟨stats, db, acc, rfl, by rw [List.nil_append, message_cycle_loop, hcid, hm]; simp [hr]⟩
  | cv' :: pre, db, stats, acc, hpre => by
    have he : cv'.raises = false := hpre cv' (List.mem_cons_self cv' pre)
    have hrest : ∀ x ∈ pre, x.raises = false :=
      fun x hx => hpre x (List.mem_cons_of_mem cv' hx)
    cases hc : cv'.convId with
    | none =>
      obtain ⟨s, d, sub, h1, h2⟩ :=
        message_loop_raise pageId writeOk cv cid m hcid hm hr post pre db stats acc hrest
      refine ⟨s, d, sub, ?_, ?_⟩
      · rw [message_cycle_loop, hc]
        exact h1
      · rw [List.cons_append, message_cycle_loop, hc]
        exact h2
    | some cid' =>
      cases hgl : get_latest_customer_message pageId cv'.msgs with
      | none =>
        obtain ⟨s, d, sub, h1, h2⟩ :=
          message_loop_raise pageId writeOk cv cid m hcid hm hr post pre db stats acc hrest
        refine ⟨s, d, sub, ?_, ?_⟩
        · rw [message_cycle_loop, hc, hgl]
          exact h1
        · rw [List.cons_append, message_cycle_loop, hc, hgl]
          exact h2
      | some m' =>
        obtain ⟨s, d, sub, h1, h2⟩ :=
          message_loop_raise pageId writeOk cv cid m hcid hm hr post pre
            (process_single_message pageId cv'.fetchedCtx cv'.aiResp cv'.dispatchOk writeOk
              m' cid' db).db
            (tallyResult stats (process_single_message pageId cv'.fetchedCtx cv'.aiResp
              cv'.dispatchOk writeOk m' cid' db).result)
            (acc ++ [(cid', m')]) hrest
        refine ⟨s, d, sub, ?_, ?_⟩
        · rw [message_cycle_loop, hc, hgl]
          simp only [he, Bool.false_eq_true, if_false]
          exact h1
        · rw [List.cons_append, message_cycle_loop, hc, hgl]
          simp only [he, Bool.false_eq_true, if_false]
          exact h2

theorem filterMap_blank_eq {β : Type} (f : FBMessage → β) :
    ∀ l : List FBMessage,
      (l.filterMap fun m => if m.message == "" then none else some (f m)) =
        ((l.filter fun m => m.message != "").map f)
  | [] => rfl
  | m :: rest => by
    have ih := filterMap_blank_eq f rest
    cases hm : (m.message == "") with
    | true =>
      have hp : (m.message != "") = false := by simp [bne, hm]
      simp only [List.filterMap_cons, hm, if_true, List.filter_cons, hp,
        Bool.false_eq_true, if_false]
      exact ih
    | false =>
      have hp : (m.message != "") = true := by simp [bne, hm]
      simp only [List.filterMap_cons, hm, Bool.false_eq_true, if_false,
        List.filter_cons, hp, if_true, List.map_cons]
      rw [ih]

theorem comment_genReq_no_context (pageId : String) (replies : List FBReply)
    (aiResp : Option String) (dispatchOk writeOk : Bool) (c : FBComment)
    (postId : String) (db : DB) :
    ∀ req, (process_single_comment pageId replies aiResp dispatchOk writeOk c postId
      db).genReq = some req → req.context = none := by
  intro req h
  unfold process_single_comment at h
  repeat' split at h
  all_goals first
  | (simp_all; done)
  | (injection h with hreq; rw [← hreq])

theorem get_latest_eq_find (pageId : String) :
    ∀ msgs : List FBMessage,
      get_latest_customer_message pageId msgs = msgs.find? fun m => m.fromId != pageId
  | [] => rfl
  | m :: rest => by
    cases hm : (m.fromId != pageId) with
    | true =>
      simp only [get_latest_customer_message, hm, if_true]
      exact (List.find?_cons_of_pos rest hm).symm
    | false =>
      simp only [get_latest_customer_message, hm, Bool.false_eq_true, if_false]
      rw [List.find?_cons_of_neg _ (by simp [hm])]
      exact get_latest_eq_find pageId rest

theorem get_latest_first_customer (pageId : String) :
    ∀ (msgs : List FBMessage) (m : FBMessage),
      get_latest_customer_message pageId msgs = some m →
      ∃ pre post, msgs = pre ++ m :: post ∧ (m.fromId == pageId) = false ∧
        ∀ x ∈ pre, (x.fromId == pageId) = true
  | [], m, h => by simp [get_latest_customer_message] at h
  | x :: rest, m, h => by
    simp only [get_latest_customer_message] at h
    cases hx : (x.fromId != pageId) with
    | true =>
      simp only [hx, if_true] at h
      have hxm : x = m := by injection h
      subst hxm
      exact ⟨[], rest, rfl, by simpa [bne] using hx, by simp⟩
    | false =>
      rw [hx] at h
      simp only [Bool.false_eq_true, if_false] at h
      obtain ⟨pre, post, heq, hm, hpre⟩ := get_latest_first_customer pageId rest m h
      refine ⟨x :: pre, post, by rw [heq]; rfl, hm, ?_⟩
      intro y hy
      rcases List.mem_cons.mp hy with rfl | hy'
      · simpa [bne] using hx
      · exact hpre y hy'

theorem message_loop_submitted (pageId : String) (writeOk : Bool) :
    ∀ (convs : List ConvIn) (db : DB) (stats : CycleStats)
      (acc : List (String × FBMessage)),
      (∀ cv ∈ convs, cv.raises = false) →
      ∃ s d, message_cycle_loop pageId writeOk convs db stats acc =
        .ok (s, d, acc ++ convs.filterMap fun cv => cv.convId.bind fun cid =>
          (get_latest_customer_message pageId cv.msgs).map fun m => (cid, m))
  | [], db, stats, acc, _ => ⟨stats, db, by simp [message_cycle_loop]⟩
  | cv :: rest, db, stats, acc, hpre => by
    have he : cv.raises = false := hpre cv (List.mem_cons_self cv rest)
    have hrest : ∀ x ∈ rest, x.raises = false :=
      fun x hx => hpre x (List.mem_cons_of_mem cv hx)
    cases hc : cv.convId with
    | none =>
      obtain ⟨s, d, h1⟩ := message_loop_submitted pageId writeOk rest db stats acc hrest
      refine ⟨s, d, ?_⟩
      rw [message_cycle_loop, hc, h1]
      simp [List.filterMap_cons, hc]
    | some cid =>
      cases hgl : get_latest_customer_message pageId cv.msgs with
      | none =>
        obtain ⟨s, d, h1⟩ := message_loop_submitted pageId writeOk rest db stats acc hrest
        refine ⟨s, d, ?_⟩
        rw [message_cycle_loop, hc, hgl, h1]
        simp [List.filterMap_cons, hc, hgl]
      | some m =>
        obtain ⟨s, d, h1⟩ := message_loop_submitted pageId writeOk rest
          (process_single_message pageId cv.fetchedCtx cv.aiResp cv.dispatchOk writeOk
            m cid db).db
          (tallyResult stats (process_single_message pageId cv.fetchedCtx cv.aiResp
            cv.dispatchOk writeOk m cid db).result)
          (acc ++ [(cid, m)]) hrest
        refine ⟨s, d, ?_⟩
        rw [message_cycle_loop, hc, hgl]
        simp only [he, Bool.false_eq_true, if_false]
        rw [h1]
        simp [List.filterMap_cons, hc, hgl]

/-! ## Claim theorems -/

/-- C10: when the underlying storage write fails, `mark_comment_processed`
and `mark_message_processed` catch the exception raised inside their `try`
block (the attempt ends in `.error`, yet the operation still returns a
state), roll the transaction back leaving the ledger exactly as before,
and a later existence check for the id answers as it did before the call
(in particular `false` if no record existed). -/
theorem ledger_write_failure_swallowed (db : DB) (cid postId mid convId msg fn fi : String)
    (rep : Option String) (repl : Bool) (err : Option String) :
    mark_comment_attempt db false cid postId msg fn fi rep repl err =
        .error "storage write failed" ∧
    mark_comment_processed db false cid postId msg fn fi rep repl err = db ∧
    is_comment_processed
        (mark_comment_processed db false cid postId msg fn fi rep repl err) cid =
      is_comment_processed db cid ∧
    mark_message_attempt db false mid convId msg fn fi rep repl err =
        .error "storage write failed" ∧
    mark_message_processed db false mid convId msg fn fi rep repl err = db ∧
    is_message_processed
        (mark_message_processed db false mid convId msg fn fi rep repl err) mid =
      is_message_processed db mid :=
  ⟨rfl, rfl, rfl, rfl, rfl, rfl⟩

/-- C5: a push delivery whose signature header does not match the
HMAC-SHA256 hex digest of the raw body under the configured (non-empty)
secret is answered with status 403; no generation or dispatch call is made,
so no event of the payload reaches any pipeline stage, and the ledger is
untouched. -/
theorem signature_rejection (hmacHex : String → String → String)
    (secret pageId : String) (aiResp : String → Option String)
    (rawBody sig : String) (parsed : Option WebhookPayload) (db : DB)
    (hsecret : secret ≠ "")
    (hmismatch : hmacHex secret rawBody ≠ pyReplace sig "sha256=" "") :
    do_POST hmacHex secret pageId aiResp rawBody sig parsed db = (403, (0, 0), db) := by
  have h1 : (secret == "") = false := beq_eq_false_iff_ne.mpr hsecret
  have h2 : (hmacHex secret rawBody == pyReplace sig "sha256=" "") = false :=
    beq_eq_false_iff_ne.mpr hmismatch
  have hv : verify_signature hmacHex secret rawBody sig = false := by
    unfold verify_signature
    cases hsig : (sig == "") with
    | true => simp [h1, hsig]
    | false => simp [h1, hsig, h2]
  unfold do_POST
  rw [hv]
  simp [bne_iff_ne, hsecret]

/-- C5 witness: a concrete mismatching delivery is rejected with 403 and
zero calls. -/
theorem signature_rejection_witness :
    do_POST (fun _ _ => "aabb") "secret" "page" (fun _ => some "Hi!") "{}" "sha256=ffff"
        (some ⟨"page", [⟨some [⟨"feed", "comment", "add", some "c1", "hello", "u1"⟩], none⟩]⟩)
        DB.empty = (403, (0, 0), DB.empty) :=
  signature_rejection (fun _ _ => "aabb") "secret" "page" (fun _ => some "Hi!") "{}"
    "sha256=ffff" _ DB.empty (by decide) (by decide)

/-- C1 counterexample: a ledger record for id `c1` exists (outcome
`replied`), yet ingesting an event with id `c1` through the push-webhook
path invokes the Generation Adapter and the Dispatch Adapter again —
`process_comment_event` in `api/webhook.py` consults no ledger at all. -/
theorem push_reingest_after_record_generates :
    is_comment_processed
        (mark_comment_processed DB.empty true "c1" "p1" "What are your hours?" "U1" "u1"
          (some "Open 11 to 8 daily!") true none) "c1" = true ∧
    process_comment_event "page" (fun _ => some "Open 11 to 8 daily!")
        [⟨"feed", "comment", "add", some "c1", "What are your hours?", "u1"⟩] = (1, 1) := by
  decide

/-- C1 (amended): freeze-on-terminal holds on the poll path only — once a
ledger record exists for an id, re-ingesting that id through
`_process_single_comment` or `_process_single_message` returns `skipped`
with no generation request, no dispatch call, and an unchanged ledger; the
push-webhook path performs no ledger check and can invoke both adapters
again. -/
theorem freeze_on_terminal_poll_path (pageId : String) (db : DB) :
    (∀ (replies : List FBReply) (aiResp : Option String) (dispatchOk writeOk : Bool)
        (c : FBComment) (postId cid : String), c.id = some cid →
      is_comment_processed db cid = true →
      process_single_comment pageId replies aiResp dispatchOk writeOk c postId db =
        ⟨"skipped", db, none, false⟩) ∧
    (∀ (fetched : List FBMessage) (aiResp : Option String) (dispatchOk writeOk : Bool)
        (m : FBMessage) (convId mid : String), m.id = some mid →
      is_message_processed db mid = true →
      process_single_message pageId fetched aiResp dispatchOk writeOk m convId db =
        ⟨"skipped", db, none, false⟩) := by
  constructor
  · intro replies aiResp dispatchOk writeOk c postId cid hid h
    unfold process_single_comment
    rw [hid]
    simp [h]
  · intro fetched aiResp dispatchOk writeOk m convId mid hid h
    unfold process_single_message
    rw [hid]
    simp [h]

/-- C1 witness: with a concrete recorded id, the poll path answers
`skipped` and makes no calls. -/
theorem freeze_on_terminal_poll_path_witness :
    is_comment_processed
        (mark_comment_processed DB.empty true "c1" "p1" "hi" "U1" "u1" none true none)
        "c1" = true ∧
    process_single_comment "page" [] (some "Hi!") true true
        ⟨some "c1", "hi", "u1", "U1", false⟩ "p1"
        (mark_comment_processed DB.empty true "c1" "p1" "hi" "U1" "u1" none true none) =
      ⟨"skipped",
       mark_comment_processed DB.empty true "c1" "p1" "hi" "U1" "u1" none true none,
       none, false⟩ :=
  ⟨by decide,
   (freeze_on_terminal_poll_path "page" _).1 [] (some "Hi!") true true _ "p1" "c1" rfl
     (by decide)⟩

/-- C2 counterexample: the poll path and the push path each ingest the
same fresh id `c1`; the poll path dispatches once and records `Replied`,
the push path dispatches once more with no ledger interaction — two
dispatch calls in total for one id, refuting "exactly one dispatch call".
(The sequential schedule shown is one legal interleaving of the two
racing paths.) -/
theorem race_two_dispatch_calls :
    (process_single_comment "page" [] (some "Open 11 to 8!") true true
        ⟨some "c1", "What are your hours?", "u1", "U1", false⟩ "p1" DB.empty).dispatched
      = true ∧
    (process_single_comment "page" [] (some "Open 11 to 8!") true true
        ⟨some "c1", "What are your hours?", "u1", "U1", false⟩ "p1" DB.empty).result
      = "replied" ∧
    (process_comment_event "page" (fun _ => some "Open 11 to 8!")
        [⟨"feed", "comment", "add", some "c1", "What are your hours?", "u1"⟩]).2 = 1 ∧
    (1 + (process_comment_event "page" (fun _ => some "Open 11 to 8!")
        [⟨"feed", "comment", "add", some "c1", "What are your hours?", "u1"⟩]).2) ≠ 1 := by
  decide

/-- C2 (amended): there is no atomic check-and-reserve — the push path
never consults the ledger.  For any fresh id ingested by both paths with
successful generation and dispatch, the poll path dispatches once and
writes the only `Replied` record, and the push path makes one further
generation and dispatch call, so the id receives two dispatch calls in
total. -/
theorem race_one_record_two_dispatches (pageId cid postId text fromId fromName resp : String)
    (db : DB)
    (hfresh : is_comment_processed db cid = false)
    (hcust : (fromId == pageId) = false)
    (hblank : (pyStrip text == "") = false)
    (hcid : (cid != "") = true) (htext : (text != "") = true)
    (hresp : (resp == "") = false) :
    (process_single_comment pageId [] (some resp) true true
        ⟨some cid, text, fromId, fromName, false⟩ postId db).dispatched = true ∧
    (process_single_comment pageId [] (some resp) true true
        ⟨some cid, text, fromId, fromName, false⟩ postId db).result = "replied" ∧
    findRecord (process_single_comment pageId [] (some resp) true true
        ⟨some cid, text, fromId, fromName, false⟩ postId db).db.comments cid =
      some ⟨postId, text, fromName, fromId, some resp, true, none⟩ ∧
    process_comment_event pageId (fun _ => some resp)
        [⟨"feed", "comment", "add", some cid, text, fromId⟩] = (1, 1) := by
  have hout : process_single_comment pageId [] (some resp) true true
      ⟨some cid, text, fromId, fromName, false⟩ postId db =
      ⟨"replied",
       mark_comment_processed db true cid postId text fromName fromId (some resp) true none,
       some ⟨text, none, "comment"⟩, true⟩ := by
    unfold process_single_comment
    simp [hfresh, hcust, hblank, hresp, List.find?]
  refine ⟨by rw [hout], by rw [hout], ?_, ?_⟩
  · rw [hout]
    exact findRecord_mark_comment db cid postId text fromName fromId (some resp) true none
  · unfold process_comment_event
    simp [hcust, hcid, htext, hresp, process_comment_event]

/-- C2 witness: the amended race behaviour at a concrete fresh id. -/
theorem race_one_record_two_dispatches_witness :
    (process_single_comment "page" [] (some "Open!") true true
        ⟨some "c1", "hours?", "u1", "U1", false⟩ "p1" DB.empty).dispatched = true ∧
    (process_single_comment "page" [] (some "Open!") true true
        ⟨some "c1", "hours?", "u1", "U1", false⟩ "p1" DB.empty).result = "replied" ∧
    findRecord (process_single_comment "page" [] (some "Open!") true true
        ⟨some "c1", "hours?", "u1", "U1", false⟩ "p1" DB.empty).db.comments "c1" =
      some ⟨"p1", "hours?", "U1", "u1", some "Open!", true, none⟩ ∧
    process_comment_event "page" (fun _ => some "Open!")
        [⟨"feed", "comment", "add", some "c1", "hours?", "u1"⟩] = (1, 1) :=
  race_one_record_two_dispatches "page" "c1" "p1" "hours?" "u1" "U1" "Open!" DB.empty
    (by decide) (by decide) (by decide) (by decide) (by decide) (by decide)

/-- C3 counterexample: a cycle with two comments where the first one's
processing raises — the exception is caught only by the `try` around the
whole cycle, so `errors` is incremented once, no `Errored` ledger record
is written for the raising event, and the second (perfectly processable)
comment is not processed at all: the ledger stays empty and no reply is
sent. -/
theorem cycle_abort_on_exception :
    process_all_comments "page" true
        [⟨⟨some "a", "boom", "u1", "A", false⟩, "p1", true, [], some "x", true⟩,
         ⟨⟨some "b", "hello", "u2", "B", false⟩, "p1", false, [], some "x", true⟩]
        DB.empty = (⟨0, 0, 1⟩, DB.empty) ∧
    is_comment_processed
        (process_all_comments "page" true
          [⟨⟨some "a", "boom", "u1", "A", false⟩, "p1", true, [], some "x", true⟩,
           ⟨⟨some "b", "hello", "u2", "B", false⟩, "p1", false, [], some "x", true⟩]
          DB.empty).2 "a" = false ∧
    is_comment_processed
        (process_all_comments "page" true
          [⟨⟨some "a", "boom", "u1", "A", false⟩, "p1", true, [], some "x", true⟩,
           ⟨⟨some "b", "hello", "u2", "B", false⟩, "p1", false, [], some "x", true⟩]
          DB.empty).2 "b" = false := by
  decide

/-- C3 (amended): an exception escaping a single event's processing is
caught at the cycle boundary (the `try` wrapping the whole loop), not at a
per-event boundary: for both the comment cycle and the message cycle, the
cycle's `errors` counter is incremented once, no `Errored` ledger record is
written for the raising event, and the remaining events of the cycle are
not processed — the result is exactly the state reached after the events
preceding the raising one. -/
theorem event_exception_caught_at_cycle_boundary (pageId : String) (writeOk : Bool) :
    (∀ (pre : List CommentIn), (∀ e ∈ pre, e.raises = false) →
      ∀ (ev : CommentIn), ev.raises = true → ∀ (post : List CommentIn) (db : DB),
      ∃ s d, comment_cycle_loop pageId writeOk pre db CycleStats.zero = .ok (s, d) ∧
        process_all_comments pageId writeOk (pre ++ ev :: post) db =
          ({ s with errors := s.errors + 1 }, d)) ∧
    (∀ (pre : List ConvIn), (∀ cv ∈ pre, cv.raises = false) →
      ∀ (cv : ConvIn) (cid : String) (m : FBMessage), cv.convId = some cid →
        get_latest_customer_message pageId cv.msgs = some m → cv.raises = true →
        ∀ (post : List ConvIn) (db : DB),
        ∃ s d sub,
          message_cycle_loop pageId writeOk pre db CycleStats.zero [] = .ok (s, d, sub) ∧
          process_all_messages pageId writeOk (pre ++ cv :: post) db =
            ({ s with errors := s.errors + 1 }, d, sub)) := by
  constructor
  · intro pre hpre ev hev post db
    obtain ⟨s, d, h1, h2⟩ :=
      comment_loop_raise pageId writeOk ev hev post pre db CycleStats.zero hpre
    exact ⟨s, d, h1, by unfold process_all_comments; rw [h2]⟩
  · intro pre hpre cv cid m hcid hm hr post db
    obtain ⟨s, d, sub, h1, h2⟩ :=
      message_loop_raise pageId writeOk cv cid m hcid hm hr post pre db CycleStats.zero [] hpre
    exact ⟨s, d, sub, h1, by unfold process_all_messages; rw [h2]⟩

/-- C3 witness: the cycle-boundary behaviour at concrete raising events on
both cycles. -/
theorem event_exception_caught_at_cycle_boundary_witness :
    (∃ s d, comment_cycle_loop "page" true [] DB.empty CycleStats.zero = .ok (s, d) ∧
      process_all_comments "page" true
          ([] ++ ⟨⟨some "a", "boom", "u1", "A", false⟩, "p1", true, [], some "x", true⟩ :: [])
          DB.empty = ({ s with errors := s.errors + 1 }, d)) ∧
    (∃ s d sub,
      message_cycle_loop "page" true [] DB.empty CycleStats.zero [] = .ok (s, d, sub) ∧
      process_all_messages "page" true
          ([] ++ ⟨some "cv1", [⟨some "m1", "hi", "u1", "U1"⟩], true, [], some "x", true⟩ :: [])
          DB.empty = ({ s with errors := s.errors + 1 }, d, sub)) :=
  ⟨(event_exception_caught_at_cycle_boundary "page" true).1 [] (by simp)
      ⟨⟨some "a", "boom", "u1", "A", false⟩, "p1", true, [], some "x", true⟩ rfl [] DB.empty,
   (event_exception_caught_at_cycle_boundary "page" true).2 [] (by simp)
      ⟨some "cv1", [⟨some "m1", "hi", "u1", "U1"⟩], true, [], some "x", true⟩ "cv1"
      ⟨some "m1", "hi", "u1", "U1"⟩ rfl (by decide) rfl [] DB.empty⟩

/-- C4 counterexample: on the push-webhook path a comment event and a
message event whose text is the whitespace-only string `" "` both reach
the Generation Adapter (one generation call each) — the webhook only
tests Python truthiness (`if message:`), not blankness, refuting "empty or
whitespace-only text never reaches the Generation Adapter". -/
theorem push_whitespace_reaches_generation :
    process_comment_event "page" (fun _ => some "Hi!")
        [⟨"feed", "comment", "add", some "c9", " ", "u1"⟩] = (1, 1) ∧
    process_message_event "page" (fun _ => some "Hi!")
        [⟨"u1", false, " "⟩] = (1, 1) := by
  decide

/-- C4 (amended): on the poll path an event (comment or message) whose
text is empty or whitespace-only never reaches the Generation Adapter and
gets a terminal ledger record with `replied = false` and reason
`"Skipped: Empty comment"` / `"Skipped: Empty message"` (the spec's
abstract reason `"empty"`); on the push-webhook path only events whose
text is exactly the empty string are excluded from generation —
whitespace-only text passes the truthiness test and reaches the
Generation Adapter. -/
theorem empty_text_exclusion_amended (pageId : String) :
    (∀ (replies : List FBReply) (aiResp : Option String) (dispatchOk : Bool)
        (c : FBComment) (postId cid : String) (db : DB), c.id = some cid →
      is_comment_processed db cid = false → (c.fromId == pageId) = false →
      c.isHidden = false → (pyStrip c.message == "") = true →
      (process_single_comment pageId replies aiResp dispatchOk true c postId db).genReq
          = none ∧
      (process_single_comment pageId replies aiResp dispatchOk true c postId db).dispatched
          = false ∧
      findRecord (process_single_comment pageId replies aiResp dispatchOk true c postId
          db).db.comments cid =
        some ⟨postId, c.message, c.fromName, c.fromId, none, false,
          some "Skipped: Empty comment"⟩) ∧
    (∀ (fetched : List FBMessage) (aiResp : Option String) (dispatchOk : Bool)
        (m : FBMessage) (convId mid : String) (db : DB), m.id = some mid →
      is_message_processed db mid = false → (m.fromId == pageId) = false →
      (pyStrip m.message == "") = true →
      (process_single_message pageId fetched aiResp dispatchOk true m convId db).genReq
          = none ∧
      (process_single_message pageId fetched aiResp dispatchOk true m convId db).dispatched
          = false ∧
      findRecord (process_single_message pageId fetched aiResp dispatchOk true m convId
          db).db.messages mid =
        some ⟨convId, m.message, m.fromName, m.fromId, none, false,
          some "Skipped: Empty message"⟩) ∧
    (∀ (aiResp : String → Option String) (ch : FeedChange), ch.message = "" →
      process_comment_event pageId aiResp [ch] = (0, 0)) ∧
    (∀ (aiResp : String → Option String) (ev : MessagingEvent), ev.text = "" →
      process_message_event pageId aiResp [ev] = (0, 0)) := by
  refine ⟨?_, ?_, ?_, ?_⟩
  · intro replies aiResp dispatchOk c postId cid db hid hfresh hself hhid hempty
    have hout : process_single_comment pageId replies aiResp dispatchOk true c postId db =
        ⟨"new",
         mark_comment_processed db true cid postId c.message c.fromName c.fromId none false
           (some "Skipped: Empty comment"),
         none, false⟩ := by
      unfold process_single_comment
      rw [hid]
      simp [hfresh, hself, hhid, hempty]
    rw [hout]
    exact ⟨rfl, rfl, findRecord_mark_comment db cid postId c.message c.fromName c.fromId
      none false (some "Skipped: Empty comment")⟩
  · intro fetched aiResp dispatchOk m convId mid db hid hfresh hself hempty
    have hout : process_single_message pageId fetched aiResp dispatchOk true m convId db =
        ⟨"new",
         mark_message_processed db true mid convId m.message m.fromName m.fromId none false
           (some "Skipped: Empty message"),
         none, false⟩ := by
      unfold process_single_message
      rw [hid]
      simp [hfresh, hself, hempty]
    rw [hout]
    exact ⟨rfl, rfl, findRecord_mark_message db mid convId m.message m.fromName m.fromId
      none false (some "Skipped: Empty message")⟩
  · intro aiResp ch hmsg
    unfold process_comment_event
    cases hch : ch.commentId <;> simp [hmsg, hch, process_comment_event]
  · intro aiResp ev htext
    unfold process_message_event
    simp [htext, process_message_event]

/-- C4 witness: the amended exclusions at concrete blank-text events. -/
theorem empty_text_exclusion_amended_witness :
    ((process_single_comment "page" [] (some "Hi!") true true
        ⟨some "c1", " \t ", "u1", "U1", false⟩ "p1" DB.empty).genReq = none ∧
      (process_single_comment "page" [] (some "Hi!") true true
        ⟨some "c1", " \t ", "u1", "U1", false⟩ "p1" DB.empty).dispatched = false ∧
      findRecord (process_single_comment "page" [] (some "Hi!") true true
          ⟨some "c1", " \t ", "u1", "U1", false⟩ "p1" DB.empty).db.comments "c1" =
        some ⟨"p1", " \t ", "U1", "u1", none, false, some "Skipped: Empty comment"⟩) ∧
    process_comment_event "page" (fun _ => some "Hi!")
        [⟨"feed", "comment", "add", some "c1", "", "u1"⟩] = (0, 0) :=
  ⟨(empty_text_exclusion_amended "page").1 [] (some "Hi!") true
      ⟨some "c1", " \t ", "u1", "U1", false⟩ "p1" "c1" DB.empty rfl (by decide) (by decide)
      rfl (by decide),
   (empty_text_exclusion_amended "page").2.2.1 (fun _ => some "Hi!")
      ⟨"feed", "comment", "add", some "c1", "", "u1"⟩ rfl⟩

/-- C6: for a poll-path comment with no prior ledger record the filters
apply in the fixed order self-origin, hidden, empty text, already-replied;
the first matching filter writes a terminal ledger record for the event id
(`replied = false` for self/hidden/empty, `replied = true` with the found
reply for already-replied), makes no generation request and no dispatch
call, and an event matching no filter proceeds to generation.  Each case
assumes only the failure of the *earlier* filters, which captures the
precedence order. -/
theorem filter_chain_order (pageId : String) (replies : List FBReply)
    (aiResp : Option String) (dispatchOk : Bool) (c : FBComment) (postId cid : String)
    (db : DB) (hid : c.id = some cid) (hfresh : is_comment_processed db cid = false) :
    ((c.fromId == pageId) = true →
      process_single_comment pageId replies aiResp dispatchOk true c postId db =
        ⟨"new",
         mark_comment_processed db true cid postId c.message c.fromName c.fromId none false
           (some "Skipped: Own page comment"),
         none, false⟩ ∧
      findRecord (mark_comment_processed db true cid postId c.message c.fromName c.fromId
          none false (some "Skipped: Own page comment")).comments cid =
        some ⟨postId, c.message, c.fromName, c.fromId, none, false,
          some "Skipped: Own page comment"⟩) ∧
    ((c.fromId == pageId) = false → c.isHidden = true →
      process_single_comment pageId replies aiResp dispatchOk true c postId db =
        ⟨"new",
         mark_comment_processed db true cid postId c.message c.fromName c.fromId none false
           (some "Skipped: Hidden comment"),
         none, false⟩ ∧
      findRecord (mark_comment_processed db true cid postId c.message c.fromName c.fromId
          none false (some "Skipped: Hidden comment")).comments cid =
        some ⟨postId, c.message, c.fromName, c.fromId, none, false,
          some "Skipped: Hidden comment"⟩) ∧
    ((c.fromId == pageId) = false → c.isHidden = false → (pyStrip c.message == "") = true →
      process_single_comment pageId replies aiResp dispatchOk true c postId db =
        ⟨"new",
         mark_comment_processed db true cid postId c.message c.fromName c.fromId none false
           (some "Skipped: Empty comment"),
         none, false⟩ ∧
      findRecord (mark_comment_processed db true cid postId c.message c.fromName c.fromId
          none false (some "Skipped: Empty comment")).comments cid =
        some ⟨postId, c.message, c.fromName, c.fromId, none, false,
          some "Skipped: Empty comment"⟩) ∧
    (∀ r : FBReply, (c.fromId == pageId) = false → c.isHidden = false →
      (pyStrip c.message == "") = false →
      replies.find? (fun x => x.fromId == pageId) = some r →
      process_single_comment pageId replies aiResp dispatchOk true c postId db =
        ⟨"skipped",
         mark_comment_processed db true cid postId c.message c.fromName c.fromId
           (some r.message) true none,
         none, false⟩ ∧
      findRecord (mark_comment_processed db true cid postId c.message c.fromName c.fromId
          (some r.message) true none).comments cid =
        some ⟨postId, c.message, c.fromName, c.fromId, some r.message, true, none⟩) ∧
    ((c.fromId == pageId) = false → c.isHidden = false → (pyStrip c.message == "") = false →
      replies.find? (fun x => x.fromId == pageId) = none →
      (process_single_comment pageId replies aiResp dispatchOk true c postId db).genReq =
        some ⟨c.message, none, "comment"⟩) := by
  refine ⟨?_, ?_, ?_, ?_, ?_⟩
  · intro hself
    refine ⟨?_, findRecord_mark_comment db cid postId c.message c.fromName c.fromId none
      false (some "Skipped: Own page comment")⟩
    unfold process_single_comment
    rw [hid]
    simp [hfresh, hself]
  · intro hself hhid
    refine ⟨?_, findRecord_mark_comment db cid postId c.message c.fromName c.fromId none
      false (some "Skipped: Hidden comment")⟩
    unfold process_single_comment
    rw [hid]
    simp [hfresh, hself, hhid]
  · intro hself hhid hempty
    refine ⟨?_, findRecord_mark_comment db cid postId c.message c.fromName c.fromId none
      false (some "Skipped: Empty comment")⟩
    unfold process_single_comment
    rw [hid]
    simp [hfresh, hself, hhid, hempty]
  · intro r hself hhid hempty hfound
    refine ⟨?_, findRecord_mark_comment db cid postId c.message c.fromName c.fromId
      (some r.message) true none⟩
    unfold process_single_comment
    rw [hid]
    simp [hfresh, hself, hhid, hempty, hfound]
  · intro hself hhid hempty hnone
    unfold process_single_comment
    rw [hid]
    simp only [hfresh, hself, hhid, hempty, hnone, Bool.false_eq_true, if_false]
    cases aiResp with
    | none => simp
    | some r =>
      cases hr : (r == "") with
      | true => simp [hr]
      | false => cases dispatchOk <;> simp [hr]

/-- C6 witness: the self-origin filter at a concrete comment authored by
the page itself. -/
theorem filter_chain_order_witness :
    process_single_comment "page" [] (some "x") true true
        ⟨some "c1", "hello", "page", "U", false⟩ "p1" DB.empty =
      ⟨"new",
       mark_comment_processed DB.empty true "c1" "p1" "hello" "U" "page" none false
         (some "Skipped: Own page comment"),
       none, false⟩ ∧
    findRecord (mark_comment_processed DB.empty true "c1" "p1" "hello" "U" "page" none
        false (some "Skipped: Own page comment")).comments "c1" =
      some ⟨"p1", "hello", "U", "page", none, false, some "Skipped: Own page comment"⟩ :=
  (filter_chain_order "page" [] (some "x") true ⟨some "c1", "hello", "page", "U", false⟩
    "p1" "c1" DB.empty rfl (by decide)).1 (by decide)

/-- C7: for every non-empty text returned by the Generation Adapter,
`generate_response` returns the text stripped of leading and trailing
whitespace; when the stripped text both starts and ends with a quote mark
the Python slice `[1:-1]` is applied — in particular a genuinely enclosed
text `"s"` loses exactly the one enclosing layer, with the inner text `s`
returned unchanged — and otherwise the stripped text is returned as is,
with no other transformation. -/
theorem generated_text_postprocessing (t : String) (ht : t ≠ "") :
    ∃ r, generate_response true (some t) = some r ∧
      ((startsWithChar (pyStrip t) '"' && endsWithChar (pyStrip t) '"') = false →
        r = pyStrip t) ∧
      ((startsWithChar (pyStrip t) '"' && endsWithChar (pyStrip t) '"') = true →
        r.data = ((pyStrip t).data.drop 1).dropLast) ∧
      (∀ s : List Char, (pyStrip t).data = '"' :: (s ++ ['"']) → r.data = s) := by
  have hne : (t == "") = false := beq_eq_false_iff_ne.mpr ht
  refine ⟨clean_generated t, ?_, ?_, ?_, ?_⟩
  · unfold generate_response
    simp [hne]
  · intro hq
    unfold clean_generated
    simp [hq]
  · intro hq
    unfold clean_generated sliceDropEnds
    simp [hq]
  · intro s hs
    have hstart : startsWithChar (pyStrip t) '"' = true := by
      unfold startsWithChar
      rw [hs]
      rfl
    have hend : endsWithChar (pyStrip t) '"' = true := by
      unfold endsWithChar
      rw [hs, show ('"' :: (s ++ ['"'])) = ('"' :: s) ++ ['"'] from rfl,
        List.getLast?_concat]
      rfl
    unfold clean_generated sliceDropEnds
    rw [if_pos (show (startsWithChar (pyStrip t) '"' &&
      endsWithChar (pyStrip t) '"') = true by rw [hstart, hend]; rfl)]
    rw [hs]
    simp

/-- C7 witness: a concrete quoted, padded generation result is trimmed and
unquoted exactly once. -/
theorem generated_text_postprocessing_witness :
    ∃ r, generate_response true (some " \"hello\" ") = some r ∧
      ((startsWithChar (pyStrip " \"hello\" ") '"' &&
          endsWithChar (pyStrip " \"hello\" ") '"') = false →
        r = pyStrip " \"hello\" ") ∧
      ((startsWithChar (pyStrip " \"hello\" ") '"' &&
          endsWithChar (pyStrip " \"hello\" ") '"') = true →
        r.data = ((pyStrip " \"hello\" ").data.drop 1).dropLast) ∧
      (∀ s : List Char, (pyStrip " \"hello\" ").data = '"' :: (s ++ ['"']) →
        r.data = s) :=
  generated_text_postprocessing " \"hello\" " (by decide)

/-- C8: a message event that reaches generation supplies as context the
linearized transcript built by `_build_conversation_context` from the (at
most 5, per the fetch limit) fetched prior messages of the same
conversation: the non-blank messages, oldest first, each formatted as
`"<senderName>: <text>"`, joined by newlines — so at most 5 lines; a
comment event never carries a context. -/
theorem context_construction (pageId : String) (fetched : List FBMessage)
    (aiResp : Option String) (dispatchOk : Bool) (m : FBMessage) (convId mid : String)
    (db : DB) (hid : m.id = some mid) (hfresh : is_message_processed db mid = false)
    (hself : (m.fromId == pageId) = false) (hblank : (pyStrip m.message == "") = false)
    (hlim : fetched.length ≤ 5) :
    (process_single_message pageId fetched aiResp dispatchOk true m convId db).genReq =
      some ⟨m.message, some (build_conversation_context fetched), "message"⟩ ∧
    (∃ lines : List String,
      build_conversation_context fetched = String.intercalate "\n" lines ∧
      lines = ((fetched.reverse.filter fun x => x.message != "").map
        fun x => x.fromName ++ ": " ++ x.message) ∧
      lines.length ≤ 5) ∧
    (∀ (replies : List FBReply) (aiR : Option String) (dOk wOk : Bool) (c : FBComment)
        (postId : String) (db' : DB) (req : GenRequest),
      (process_single_comment pageId replies aiR dOk wOk c postId db').genReq = some req →
      req.context = none) := by
  refine ⟨?_, ?_, ?_⟩
  · unfold process_single_message
    rw [hid]
    simp only [hfresh, hself, hblank, Bool.false_eq_true, if_false]
    cases aiResp with
    | none => simp
    | some r =>
      cases hr : (r == "") with
      | true => simp [hr]
      | false => cases dispatchOk <;> simp [hr]
  · refine ⟨(fetched.reverse.filter fun x => x.message != "").map
      (fun x => x.fromName ++ ": " ++ x.message), ?_, rfl, ?_⟩
    · unfold build_conversation_context
      rw [filterMap_blank_eq (fun x => x.fromName ++ ": " ++ x.message) fetched.reverse]
    · calc ((fetched.reverse.filter fun x => x.message != "").map
            fun x => x.fromName ++ ": " ++ x.message).length
          = (fetched.reverse.filter fun x => x.message != "").length := List.length_map _ _
        _ ≤ fetched.reverse.length := List.length_filter_le _ _
        _ = fetched.length := List.length_reverse _
        _ ≤ 5 := hlim
  · intro replies aiR dOk wOk c postId db' req hreq
    exact comment_genReq_no_context pageId replies aiR dOk wOk c postId db' req hreq

/-- C8 witness: a concrete message with a three-message fetched
conversation — blank messages dropped, oldest first, newline-joined. -/
theorem context_construction_witness :
    (process_single_message "page"
        [⟨some "m2", "newest", "u1", "Bob"⟩, ⟨some "m1", "", "page", "Page"⟩,
         ⟨some "m0", "oldest", "u1", "Bob"⟩]
        (some "Hi!") true true ⟨some "m3", "hello", "u1", "Bob"⟩ "cv1" DB.empty).genReq =
      some ⟨"hello",
        some (build_conversation_context
          [⟨some "m2", "newest", "u1", "Bob"⟩, ⟨some "m1", "", "page", "Page"⟩,
           ⟨some "m0", "oldest", "u1", "Bob"⟩]), "message"⟩ ∧
    (∃ lines : List String,
      build_conversation_context
          [⟨some "m2", "newest", "u1", "Bob"⟩, ⟨some "m1", "", "page", "Page"⟩,
           ⟨some "m0", "oldest", "u1", "Bob"⟩] = String.intercalate "\n" lines ∧
      lines = ((([⟨some "m2", "newest", "u1", "Bob"⟩, ⟨some "m1", "", "page", "Page"⟩,
           ⟨some "m0", "oldest", "u1", "Bob"⟩] : List FBMessage).reverse.filter
             fun x => x.message != "").map fun x => x.fromName ++ ": " ++ x.message) ∧
      lines.length ≤ 5) ∧
    (∀ (replies : List FBReply) (aiR : Option String) (dOk wOk : Bool) (c : FBComment)
        (postId : String) (db' : DB) (req : GenRequest),
      (process_single_comment "page" replies aiR dOk wOk c postId db').genReq = some req →
      req.context = none) :=
  context_construction "page"
    [⟨some "m2", "newest", "u1", "Bob"⟩, ⟨some "m1", "", "page", "Page"⟩,
     ⟨some "m0", "oldest", "u1", "Bob"⟩]
    (some "Hi!") true ⟨some "m3", "hello", "u1", "Bob"⟩ "cv1" "m3" DB.empty rfl
    (by decide) (by decide) (by decide) (by decide)

/-- C9: per poll cycle each fetched conversation submits at most one
message to per-message processing, namely the first message of the fetched
(newest-first) list whose sender id differs from the page's own id:
`_get_latest_customer_message` is the first-match scan (`find?`), the found
message is preceded only by own-page messages, and in a cycle without
event exceptions the submitted pairs are exactly one optional pick per
conversation — so every older customer message of a conversation is not
processed in that cycle. -/
theorem latest_customer_message_only (pageId : String) (writeOk : Bool) :
    (∀ msgs : List FBMessage,
      get_latest_customer_message pageId msgs =
        msgs.find? fun m => m.fromId != pageId) ∧
    (∀ (msgs : List FBMessage) (m : FBMessage),
      get_latest_customer_message pageId msgs = some m →
      ∃ pre post, msgs = pre ++ m :: post ∧ (m.fromId == pageId) = false ∧
        ∀ x ∈ pre, (x.fromId == pageId) = true) ∧
    (∀ (convs : List ConvIn) (db : DB), (∀ cv ∈ convs, cv.raises = false) →
      (process_all_messages pageId writeOk convs db).2.2 =
        convs.filterMap fun cv => cv.convId.bind fun cid =>
          (get_latest_customer_message pageId cv.msgs).map fun m => (cid, m)) := by
  refine ⟨get_latest_eq_find pageId, get_latest_first_customer pageId, ?_⟩
  intro convs db hnr
  obtain ⟨s, d, h1⟩ :=
    message_loop_submitted pageId writeOk convs db CycleStats.zero [] hnr
  unfold process_all_messages
  rw [h1]
  simp

/-- C9 witness: a concrete conversation whose newest message is the
page's own — the second (first customer) message is the one submitted. -/
theorem latest_customer_message_only_witness :
    (∃ pre post,
      ([⟨some "m3", "t3", "page", "P"⟩, ⟨some "m2", "t2", "u1", "U"⟩,
        ⟨some "m1", "t1", "u1", "U"⟩] : List FBMessage) =
          pre ++ (⟨some "m2", "t2", "u1", "U"⟩ : FBMessage) :: post ∧
      ((⟨some "m2", "t2", "u1", "U"⟩ : FBMessage).fromId == "page") = false ∧
      ∀ x ∈ pre, (x.fromId == "page") = true) ∧
    (process_all_messages "page" true
        [⟨some "cv1",
          [⟨some "m3", "t3", "page", "P"⟩, ⟨some "m2", "t2", "u1", "U"⟩,
           ⟨some "m1", "t1", "u1", "U"⟩], false, [], some "Hi!", true⟩]
        DB.empty).2.2 =
      ([⟨some "cv1",
          [⟨some "m3", "t3", "page", "P"⟩, ⟨some "m2", "t2", "u1", "U"⟩,
           ⟨some "m1", "t1", "u1", "U"⟩], false, [], some "Hi!", true⟩] :
        List ConvIn).filterMap (fun cv => cv.convId.bind fun cid =>
          (get_latest_customer_message "page" cv.msgs).map fun m => (cid, m)) :=
  ⟨(latest_customer_message_only "page" true).2.1
      [⟨some "m3", "t3", "page", "P"⟩, ⟨some "m2", "t2", "u1", "U"⟩,
       ⟨some "m1", "t1", "u1", "U"⟩]
      ⟨some "m2", "t2", "u1", "U"⟩ (by decide),
   (latest_customer_message_only "page" true).2.2
      [⟨some "cv1",
        [⟨some "m3", "t3", "page", "P"⟩, ⟨some "m2", "t2", "u1", "U"⟩,
         ⟨some "m1", "t1", "u1", "U"⟩], false, [], some "Hi!", true⟩]
      DB.empty (by decide)⟩

end ChickThisOut
